import Mathlib

/-!
# Verification of `src/robot.py`

Shallow embedding of the single task entry point `my_task` from
`src/robot.py`:

```python
@task
def my_task(name, age):
    print(f"Hello {name} you are {age} years old")
    print("--------------------------------")
    print(f"Key from Env: {os.getenv('API_KEY')}")
    print("--------------------------------")
```

The stateful Python code is embedded by explicit state passing: a
`ProcState` carries the process environment (a map from variable names to
optional string values), the lines written to standard output so far, and
a log of the environment variables read.  `print` appends one line to
stdout; `os.getenv` returns the variable's value (`none` when unset) and
logs the read.  Python renders the parameters `name` and `age` inside the
f-string via `str()`; the embedding takes them as the strings they render
to.  An f-string hole holding the `Option String` result of `os.getenv`
renders `none` as Python renders `None`.
-/

/-- Process-level state threaded through the embedded Python code:
the environment, the lines written to stdout (in order), and the log of
environment-variable reads (in order). -/
structure ProcState where
  env : String → Option String
  stdout : List String
  envReads : List String

/-- Embedding of Python `print(s)`: append one line to stdout. -/
def py_print (s : String) (st : ProcState) : ProcState :=
  { st with stdout := st.stdout ++ [s] }

/-- Embedding of Python `os.getenv(key)`: return the value (`none` when
the variable is unset) and log the read. -/
def os_getenv (key : String) (st : ProcState) : Option String × ProcState :=
  (st.env key, { st with envReads := st.envReads ++ [key] })

/-- How a Python f-string renders the `Optional[str]` result of
`os.getenv`: the string itself when present, the text `None` when the
variable is unset. -/
def renderOpt : Option String → String
  | some v => v
  | none => "None"

/-- The separator literal printed on lines 8 and 10 of `src/robot.py`. -/
def separator : String := "--------------------------------"

/-- Embedding of `my_task` from `src/robot.py`, line by line.  `name` and
`age` are the `str()` renderings of the two parameters.  The returned
`Unit` is Python's implicit `None` return value. -/
def my_task (name age : String) (st : ProcState) : Unit × ProcState :=
  let st := py_print ("Hello " ++ name ++ " you are " ++ age ++ " years old") st
  let st := py_print separator st
  let (v, st) := os_getenv "API_KEY" st
  let st := py_print ("Key from Env: " ++ renderOpt v) st
  let st := py_print separator st
  ((), st)

/-- A fresh process state: given environment, empty stdout, no reads yet. -/
def freshState (env : String → Option String) : ProcState :=
  { env := env, stdout := [], envReads := [] }

/-- The lines `my_task` writes to stdout when run from a fresh state with
the given environment. -/
def run_my_task (name age : String) (env : String → Option String) :
    List String :=
  (my_task name age (freshState env)).2.stdout

/-- A concrete environment where only `API_KEY` is set, to value `v`. -/
def envWithKey (v : String) : String → Option String :=
  fun k => if k = "API_KEY" then some v else none

/-- A concrete environment where nothing is set. -/
def emptyEnv : String → Option String := fun _ => none

/-- The greeting line, as a function of the rendered parameters. -/
def greetingLine (name age : String) : String :=
  "Hello " ++ name ++ " you are " ++ age ++ " years old"

/-- The environment line, as a function of the `API_KEY` lookup result. -/
def envLine (v : Option String) : String :=
  "Key from Env: " ++ renderOpt v

/-- Running `my_task` from any state appends exactly the four lines
(greeting, separator, environment line, separator) to stdout. -/
theorem my_task_stdout (name age : String) (st : ProcState) :
    (my_task name age st).2.stdout =
      st.stdout ++ [greetingLine name age, separator,
        envLine (st.env "API_KEY"), separator] := by
  simp [my_task, py_print, os_getenv, greetingLine, envLine]

theorem run_my_task_eq (name age : String) (env : String → Option String) :
    run_my_task name age env =
      [greetingLine name age, separator, envLine (env "API_KEY"), separator] := by
  simp [run_my_task, my_task_stdout, freshState]

/-- The greeting line never coincides with the separator: it starts with
`H`, the separator with `-`. -/
theorem greetingLine_ne_separator (name age : String) :
    greetingLine name age ≠ separator := by
  intro h
  have h2 : (greetingLine name age).data.head? = separator.data.head? := by
    rw [h]
  simp [greetingLine, separator] at h2

/-- The environment line never coincides with the separator: it starts
with `K`, the separator with `-`. -/
theorem envLine_ne_separator (v : Option String) :
    envLine v ≠ separator := by
  intro h
  have h2 : (envLine v).data.head? = separator.data.head? := by
    rw [h]
  simp [envLine, separator] at h2

/-- C1: for every value of the parameters `name` and `age` (and any
environment), the first line written to standard output by `my_task`
equals the literal string `Hello {name} you are {age} years old` with
`name` and `age` interpolated verbatim. -/
theorem C1_first_line (name age : String) (env : String → Option String) :
    (run_my_task name age env).head? =
      some ("Hello " ++ name ++ " you are " ++ age ++ " years old") := by
  simp [run_my_task_eq, greetingLine]

/-- C2: on every invocation `my_task` writes exactly four lines to
standard output, in order: greeting, dash separator, the line beginning
`Key from Env: `, the same separator again — and nothing else (stdout
after the call is stdout before, plus exactly those four lines). -/
theorem C2_exactly_four_lines (name age : String) (st : ProcState) :
    (my_task name age st).2.stdout =
      st.stdout ++
        ["Hello " ++ name ++ " you are " ++ age ++ " years old",
         separator,
         "Key from Env: " ++ renderOpt (st.env "API_KEY"),
         separator] := by
  simp [my_task_stdout, greetingLine, envLine]

/-- C3: whenever the environment variable `API_KEY` is set to a value
`V`, the third line `my_task` writes to standard output equals
`Key from Env: V`. -/
theorem C3_env_line_set (name age V : String) (env : String → Option String)
    (h : env "API_KEY" = some V) :
    (run_my_task name age env)[2]? = some ("Key from Env: " ++ V) := by
  simp [run_my_task_eq, h, envLine, renderOpt]

theorem C3_env_line_set_witness :
    envWithKey "secret123" "API_KEY" = some "secret123" ∧
    (run_my_task "Ada" "30" (envWithKey "secret123"))[2]? =
      some ("Key from Env: " ++ "secret123") :=
  ⟨by decide,
   C3_env_line_set "Ada" "30" "secret123" (envWithKey "secret123") (by decide)⟩

/-- C4: whenever the environment variable `API_KEY` is unset, the third
line `my_task` writes renders the `None` placeholder
(`Key from Env: None`); the function still returns normally. -/
theorem C4_env_line_unset (name age : String) (env : String → Option String)
    (h : env "API_KEY" = none) :
    (run_my_task name age env)[2]? = some ("Key from Env: " ++ "None") ∧
    (my_task name age (freshState env)).1 = () := by
  exact ⟨by simp [run_my_task_eq, h, envLine, renderOpt], rfl⟩

theorem C4_env_line_unset_witness :
    emptyEnv "API_KEY" = none ∧
    ((run_my_task "" "0" emptyEnv)[2]? = some ("Key from Env: " ++ "None") ∧
      (my_task "" "0" (freshState emptyEnv)).1 = ()) :=
  ⟨by decide, C4_env_line_unset "" "0" emptyEnv (by decide)⟩

/-- C5: the second and fourth output lines both equal the one fixed
separator string, every character of which is a dash; the separator
occurs exactly twice in the output; and the environment line sits
strictly between the two separator emissions (at index 2, between
indices 1 and 3). -/
theorem C5_separator_brackets (name age : String)
    (env : String → Option String) :
    (run_my_task name age env)[1]? = some separator ∧
    (run_my_task name age env)[3]? = some separator ∧
    (run_my_task name age env).count separator = 2 ∧
    (run_my_task name age env)[2]? = some (envLine (env "API_KEY")) ∧
    separator.data.all (fun c => c = Char.ofNat 45) = true := by
  refine ⟨by simp [run_my_task_eq], by simp [run_my_task_eq], ?_,
    by simp [run_my_task_eq], by decide⟩
  have hg := greetingLine_ne_separator name age
  have he := envLine_ne_separator (env "API_KEY")
  simp [run_my_task_eq, List.count_cons, hg, he]

/-- C6: with `name = "Ada"`, `age = 30` and `API_KEY = "secret123"`, the
output of `my_task` is exactly the four lines of the spec's scenario. -/
theorem C6_scenario_ada :
    run_my_task "Ada" "30" (envWithKey "secret123") =
      ["Hello Ada you are 30 years old",
       "--------------------------------",
       "Key from Env: secret123",
       "--------------------------------"] := by
  decide

/-- C7: `my_task` is total: for every `name`, every `age` and every
process state (whether or not `API_KEY` is set) the call completes,
returns the unit value (Python's `None`), and writes its four lines. -/
theorem C7_total_returns_unit (name age : String) (st : ProcState) :
    (my_task name age st).1 = () ∧
    ((my_task name age st).2.stdout).length = st.stdout.length + 4 := by
  exact ⟨rfl, by simp [my_task_stdout]⟩

/-- C8: the only effects of `my_task` are console writes and one read of
one environment variable: the environment itself is unchanged, exactly
one read (of `API_KEY`) is logged, and stdout is only appended to. -/
theorem C8_frame (name age : String) (st : ProcState) :
    (my_task name age st).2.env = st.env ∧
    (my_task name age st).2.envReads = st.envReads ++ ["API_KEY"] ∧
    ∃ out, (my_task name age st).2.stdout = st.stdout ++ out := by
  refine ⟨?_, ?_, ⟨_, my_task_stdout name age st⟩⟩ <;>
    simp [my_task, py_print, os_getenv]

/-- C9: the separator line emitted by `my_task` is exactly 32 dash
characters, a fixed constant: for all inputs and environments the second
output line is the constant `separator`, whose character data is 32
copies of `-`. -/
theorem C9_separator_32_dashes (name age : String)
    (env : String → Option String) :
    (run_my_task name age env)[1]? = some separator ∧
    separator.data = List.replicate 32 (Char.ofNat 45) ∧
    separator.length = 32 := by
  refine ⟨by simp [run_my_task_eq], by decide, by decide⟩

/-- C10: `my_task` is deterministic and its non-environment lines do not
depend on `API_KEY`: two runs with the same `name`, `age` and the same
`API_KEY` state produce identical output, and the first, second and
fourth lines agree across runs even when the environments differ. -/
theorem C10_deterministic_noninterference (name age : String)
    (env₁ env₂ : String → Option String) :
    (env₁ "API_KEY" = env₂ "API_KEY" →
      run_my_task name age env₁ = run_my_task name age env₂) ∧
    (run_my_task name age env₁).take 2 = (run_my_task name age env₂).take 2 ∧
    (run_my_task name age env₁)[0]? = (run_my_task name age env₂)[0]? ∧
    (run_my_task name age env₁)[1]? = (run_my_task name age env₂)[1]? ∧
    (run_my_task name age env₁)[3]? = (run_my_task name age env₂)[3]? := by
    refine ⟨fun h => by simp [run_my_task_eq, h], ?_, ?_, ?_, ?_⟩ <;>
      simp [run_my_task_eq]

theorem C10_deterministic_noninterference_witness :
    run_my_task "Ada" "30" (envWithKey "secret123") =
      run_my_task "Ada" "30" (envWithKey "secret123") ∧
    (run_my_task "Ada" "30" (envWithKey "secret123")).take 2 =
      (run_my_task "Ada" "30" emptyEnv).take 2 ∧
    (run_my_task "Ada" "30" (envWithKey "secret123"))[3]? =
      (run_my_task "Ada" "30" emptyEnv)[3]? := by
  have h := C10_deterministic_noninterference "Ada" "30"
    (envWithKey "secret123") (envWithKey "secret123")
  have h2 := C10_deterministic_noninterference "Ada" "30"
    (envWithKey "secret123") emptyEnv
  exact ⟨h.1 rfl, h2.2.1, h2.2.2.2.2⟩
